import Mathlib

/-!
Verification of the TEP (Tennessee Eastman Process) ETL + training pipeline.

The development shallowly embeds the pipeline's dataframe operations:

* `src/preprocessing/processor.py` — CSV→parquet conversion and the
  normal/faulty merge (`DataProcessor.convert_csv_to_parquet`,
  `DataProcessor.merge_faulty_and_normal_data`);
* `src/training/loader.py` — cached loading, per-class subsampling and the
  leakage-safe split by simulation run (`DataLoader.load_data`,
  `DataLoader._subsample_by_run`, `DataLoader.split_by_run`,
  `DataLoader._finalize_split`);
* `src/training/trainer.py` — the two-phase cascade trainer
  (`ModelTrainer.train_cascaded_models`, `ModelTrainer._prepare_features`).

Dataframes are modelled as lists of rows (row-oriented functions) or as
association lists of named columns (column-oriented functions); the
filesystem is an association list of paths to parquet contents, where a
write shadows older entries.  Fallible operations (`pd.read_parquet` of a
missing file, `df['faultNumber']` on a frame without that column) return
`Except String` values carrying the Python exception class name.
-/

namespace TepDemo

/-- A filesystem path, split as (directory, filename).  The Python code
builds paths with `Path` division; the directory part keeps paths from
distinct configured directories distinct. -/
abbrev FPath := String × String

/-- One row of a raw/master TEP dataframe: the `faultNumber` and
`simulationRun` columns the pipeline inspects, plus an opaque payload
standing for all remaining sensor columns.  `fault` is meaningful only when
the enclosing frame's `hasFaultCol` is set (pandas column presence is
frame-level). -/
structure PRow where
  fault : Int
  simRun : Int
  payload : Nat
deriving DecidableEq, Repr

/-- A pandas dataframe as the processor/loader sees it: whether the
`faultNumber` column is present, and the list of rows. -/
structure PDF where
  hasFaultCol : Bool
  rows : List PRow
deriving DecidableEq, Repr

/-- The empty dataframe `pd.DataFrame()`. -/
def emptyPDF : PDF := ⟨false, []⟩

/-- The filesystem: an association list from paths to parquet/CSV contents.
A write prepends, shadowing any older entry for the same path. -/
abbrev FS := List (FPath × PDF)

/-- Reading a file: the most recent write to that path, if any. -/
def fsRead (fs : FS) (p : FPath) : Option PDF :=
  (fs.find? (fun e => decide (e.1 = p))).map (fun e => e.2)

/-- `Path.exists()` in the model. -/
def fsExists (fs : FS) (p : FPath) : Bool := (fsRead fs p).isSome

/-- Reading a file that is known to exist (`pd.read_parquet` after an
existence check); defaults to the empty frame on the unreachable miss. -/
def fsGet (fs : FS) (p : FPath) : PDF := (fsRead fs p).getD emptyPDF

/-- `df.to_parquet(path)` in the model. -/
def fsWrite (fs : FS) (p : FPath) (d : PDF) : FS := (p, d) :: fs

/-- Modelled from the spec: `src/config.py` in the repository does not
define the path constants the pipeline modules import (`RAW_DATA_PATH` is
the raw CSV directory).  The spec fixes them as constant filesystem paths,
so they are modelled as fixed, pairwise distinct directory names. -/
def RAW_DATA_PATH : String := "data/raw/tep-csv"

/-- Modelled from the spec: the directory of converted parquet artifacts. -/
def RAW_PARQUET_DIR : String := "data/raw/tep-parquet"

/-- Modelled from the spec: the directory of cached subset artifacts. -/
def SUBSETS_DIR : String := "data/subsets"

/-- Modelled from the spec: the path of the merged master dataset file. -/
def MERGED_FILE_PATH : FPath := ("data/processed", "TEP_merged.parquet")

/-- Modelled from the spec: parquet filename of the faulty training data. -/
def FAULTY_TRAIN_FILENAME : String := "TEP_FaultFree_Faulty_Training.parquet"

/-- Modelled from the spec: parquet filename of the normal training data. -/
def NORMAL_TRAIN_FILENAME : String := "TEP_FaultFree_Normal_Training.parquet"

/-- Path of the faulty training parquet read by the merge. -/
def faultyPath : FPath := (RAW_PARQUET_DIR, FAULTY_TRAIN_FILENAME)

/-- Path of the normal training parquet read by the merge. -/
def normalPath : FPath := (RAW_PARQUET_DIR, NORMAL_TRAIN_FILENAME)

/-- `csv_name.replace(".csv", ".parquet")` from
`DataProcessor.convert_csv_to_parquet`. -/
def csvToParquetName (csvName : String) : String :=
  csvName.replace ".csv" ".parquet"

/-- One iteration of the loop in `DataProcessor.convert_csv_to_parquet`
(processor.py lines 46-69): skip when the source CSV is missing, skip when
the parquet already exists, otherwise read the CSV and write the parquet
(the dtype-optimised read is value-preserving in the model). -/
def convertOne (fs : FS) (csvName : String) : FS :=
  if fsExists fs (RAW_DATA_PATH, csvName) = false then fs
  else if fsExists fs (RAW_PARQUET_DIR, csvToParquetName csvName) then fs
  else fsWrite fs (RAW_PARQUET_DIR, csvToParquetName csvName)
    (fsGet fs (RAW_DATA_PATH, csvName))

/-- `DataProcessor.convert_csv_to_parquet` (processor.py lines 30-74),
iterating over the configured CSV list.  Modelled from the spec: the
`RAW_CSV_FILES` constant is missing from `src/config.py`, so the list of
CSV names is taken as a parameter. -/
def convert_csv_to_parquet (files : List String) (fs : FS) : FS :=
  files.foldl convertOne fs

/-- Sets `faultNumber` to `0` on a row (`normal_df["faultNumber"] = 0`). -/
def zeroFault (r : PRow) : PRow := { r with fault := 0 }

/-- `DataProcessor.merge_faulty_and_normal_data` (processor.py lines
76-119).  Returns the updated filesystem, the resulting dataframe and a
flag recording whether the empty-source error message was logged; a read
of a missing upstream parquet is the Python `FileNotFoundError`.  Column
harmonisation assigns `faultNumber = 0` to every normal row when the
normal frame lacks that column.  (Concatenation of frames where only one
side carries `faultNumber` would NaN-fill in pandas; the merged frame is
marked as having the column only when both sides do, which is the only
case the pipeline reaches.) -/
def merge_faulty_and_normal_data (fs : FS) : Except String (FS × PDF × Bool) :=
  if fsExists fs MERGED_FILE_PATH then .ok (fs, fsGet fs MERGED_FILE_PATH, false)
  else if fsExists fs faultyPath = false then .error "FileNotFoundError"
  else if fsExists fs normalPath = false then .error "FileNotFoundError"
  else
    let faulty := fsGet fs faultyPath
    let normal := fsGet fs normalPath
    if normal.rows.isEmpty && faulty.rows.isEmpty then .ok (fs, emptyPDF, true)
    else
      let normal1 : PDF :=
        if normal.hasFaultCol = false then ⟨true, normal.rows.map zeroFault⟩
        else normal
      let merged : PDF :=
        ⟨normal1.hasFaultCol && faulty.hasFaultCol, normal1.rows ++ faulty.rows⟩
      .ok (fsWrite fs MERGED_FILE_PATH merged, merged, false)

/-- `np.unique` on a series of simulation-run ids: the distinct values in
ascending order. -/
def npUnique (l : List Int) : List Int :=
  l.dedup.mergeSort (fun a b => decide (a ≤ b))

/-- The `simulationRun` series of the `faultNumber = f` group
(`df.groupby('faultNumber')['simulationRun']`). -/
def classSimRuns (df : PDF) (f : Int) : List Int :=
  (df.rows.filter (fun r => decide (r.fault = f))).map PRow.simRun

/-- `np.unique(x)[:n_simulations]` for the `faultNumber = f` group: the
`n` smallest distinct simulation-run ids of that class. -/
def nSmallestRuns (df : PDF) (f : Int) (n : Nat) : List Int :=
  (npUnique (classSimRuns df f)).take n

/-- `DataLoader._subsample_by_run` (loader.py lines 109-123): keep the
rows whose `simulationRun` lies in `np.unique(group)[:n]` for their
`faultNumber` group (`reset_index(drop=True)` does not change row
values). -/
def subsample_by_run (df : PDF) (n : Nat) : PDF :=
  ⟨df.hasFaultCol, df.rows.filter (fun r => decide (r.simRun ∈ nSmallestRuns df r.fault n))⟩

/-- Test fixture for the end-to-end scenario: the twenty run ids of a
master dataset with ten normal runs and two fault classes of five runs
each. -/
def scenarioRunIds : List String :=
  ["0_1", "0_2", "0_3", "0_4", "0_5", "0_6", "0_7", "0_8", "0_9", "0_10",
   "1_1", "1_2", "1_3", "1_4", "1_5", "2_1", "2_2", "2_3", "2_4", "2_5"]

/-- Follows the spec's words, for comparison with the source-derived
`nSmallestRuns`: a value `v` is among the `n` smallest distinct values of
a series `vals` when it occurs in the series and fewer than `n` distinct
values of the series are strictly smaller than it. -/
def specNSmallestDistinct (n : Nat) (v : Int) (vals : List Int) : Prop :=
  v ∈ vals ∧ vals.dedup.countP (fun w => decide (w < v)) < n

/-- A row of a dataframe carrying the derived `unique_run_id` column: the
run id plus the payload (for the loader, the full original row). -/
structure SRow (α : Type) where
  runId : String
  payload : α
deriving DecidableEq, Repr

/-- The composite key of loader.py line 62:
`str(faultNumber) + "_" + str(simulationRun)`. -/
def uniqueRunIdOf (r : PRow) : String :=
  toString r.fault ++ "_" ++ toString r.simRun

/-- Adding the `unique_run_id` column to a loaded dataframe
(loader.py line 62). -/
def withRunId (df : PDF) : List (SRow PRow) :=
  df.rows.map (fun r => ⟨uniqueRunIdOf r, r⟩)

/-- The subset cache path `SUBSETS_DIR / f"TEP_subset_N{n}.parquet"`
(loader.py line 45). -/
def subsetPath (n : Nat) : FPath :=
  (SUBSETS_DIR, "TEP_subset_N" ++ toString n ++ ".parquet")

/-- `DataLoader.load_data` (loader.py lines 33-63).  The falsy
`n_simulations` values (`0`, `None`) are modelled as `n = 0`.  Reading a
cached subset if present; otherwise requiring the master artifact
(`FileNotFoundError` when absent), subsampling and caching when
`n_simulations` is truthy, and finally deriving `unique_run_id`
(`KeyError` when `faultNumber` is absent, raised by the groupby before
any cache write in the subsampling branch). -/
def load_data (n : Nat) (fs : FS) : Except String (FS × List (SRow PRow)) :=
  if fsExists fs (subsetPath n) then
    let df := fsGet fs (subsetPath n)
    if df.hasFaultCol then .ok (fs, withRunId df) else .error "KeyError"
  else if fsExists fs MERGED_FILE_PATH = false then .error "FileNotFoundError"
  else
    let df0 := fsGet fs MERGED_FILE_PATH
    if n ≠ 0 then
      if df0.hasFaultCol then
        let df1 := subsample_by_run df0 n
        .ok (fsWrite fs (subsetPath n) df1, withRunId df1)
      else .error "KeyError"
    else
      if df0.hasFaultCol then .ok (fs, withRunId df0) else .error "KeyError"

/-- Python `int(...)` truncation toward zero, on exact rationals. -/
def pyInt (q : ℚ) : Int := q.num.tdiv q.den

/-- NumPy slice `arr[:i]`: the first `i` elements for `i ≥ 0`, all but the
last `-i` elements for negative `i`. -/
def npSliceTo {α : Type} (l : List α) (i : Int) : List α :=
  if 0 ≤ i then l.take i.toNat else l.take ((l.length : Int) + i).toNat

/-- The deduplicated run-id column `df['unique_run_id'].unique()`
(first-occurrence order). -/
def uniqueRuns {α : Type} (df : List (SRow α)) : List String :=
  (df.map SRow.runId).dedup

/-- The core of `DataLoader.split_by_run` (loader.py lines 82-89): given
the shuffled unique run ids (`shuffle(df['unique_run_id'].unique(),
random_state=RANDOM_SEED)` — the shuffle is modelled as an arbitrary
permutation parameter), cut at `int(len(unique_runs) * (1 - test_size))`,
and partition rows by membership of their run id in the train runs. -/
def split_by_run {α : Type} (shuffled : List String) (df : List (SRow α))
    (testSize : ℚ) : List (SRow α) × List (SRow α) :=
  let splitIdx : Int := pyInt ((shuffled.length : ℚ) * (1 - testSize))
  let trainRuns := npSliceTo shuffled splitIdx
  (df.filter (fun r => decide (r.runId ∈ trainRuns)),
   df.filter (fun r => ! decide (r.runId ∈ trainRuns)))

/-- A column-oriented dataframe: an association list from column names to
value lists (one value per row). -/
abbrev ColDF (α : Type) := List (String × List α)

/-- The metadata column list of `DataLoader._finalize_split` and
`ModelTrainer._prepare_features`. -/
def metadataCols : List String :=
  ["faultNumber", "simulationRun", "sample", "unique_run_id"]

/-- The column names of a column-oriented dataframe (`df.columns`). -/
def colNames {α : Type} (df : ColDF α) : List String := df.map Prod.fst

/-- `[c for c in metadata if c in df.columns]`. -/
def colsToDrop {α : Type} (df : ColDF α) : List String :=
  metadataCols.filter (fun m => decide (m ∈ colNames df))

/-- `df.drop(columns=cols)`: remove the named columns, keeping the rest in
order. -/
def dropColumns {α : Type} (df : ColDF α) (cols : List String) : ColDF α :=
  df.filter (fun c => ! decide (c.1 ∈ cols))

/-- `DataLoader._finalize_split` (loader.py lines 93-107): the feature
frame with the present metadata columns dropped, and the label series
`df['faultNumber']` (`none` models the KeyError when the column is
absent). -/
def finalize_split {α : Type} (df : ColDF α) : ColDF α × Option (List α) :=
  (dropColumns df (colsToDrop df), df.lookup "faultNumber")

/-- `ModelTrainer._prepare_features` (trainer.py lines 98-109): the same
metadata-dropping as `_finalize_split`, without the label. -/
def prepare_features {α : Type} (df : ColDF α) : ColDF α :=
  dropColumns df (colsToDrop df)

/-- A training-dataframe row for the trainer: the `faultNumber` label and
the feature part of the row (all non-metadata columns). -/
structure TRow (F : Type) where
  faultNumber : Int
  features : F
deriving DecidableEq, Repr

/-- What a fitted estimator is determined by in the model: the feature
matrix and label series passed to `fit`.  A serialized artifact records
this fit. -/
structure FitData (F : Type) where
  X : List F
  y : List Int
deriving DecidableEq, Repr

/-- The artifact state of the trainer's model directory: contents of the
detector and diagnostician artifact files (`none` = file absent). -/
structure TrainerState (F : Type) where
  detectorArtifact : Option (FitData F)
  diagnosticianArtifact : Option (FitData F)
deriving DecidableEq, Repr

/-- Which phases actually called `fit` (and wrote their artifact) during
one `train_cascaded_models` call. -/
structure TrainLog where
  fitDetector : Bool
  fitDiagnostician : Bool
deriving DecidableEq, Repr

/-- Row-level counterpart of `ModelTrainer._prepare_features`: projecting
each row to its non-metadata feature part. -/
def prepareFeaturesRows {F : Type} (df : List (TRow F)) : List F :=
  df.map TRow.features

/-- The binary detector label `(df['faultNumber'] > 0).astype(int)`
(trainer.py line 62). -/
def binaryLabels {F : Type} (df : List (TRow F)) : List Int :=
  df.map (fun r => if 0 < r.faultNumber then 1 else 0)

/-- The faulty-row filter `df_train[df_train['faultNumber'] > 0]`
(trainer.py lines 82-83). -/
def faultyRows {F : Type} (df : List (TRow F)) : List (TRow F) :=
  df.filter (fun r => decide (0 < r.faultNumber))

/-- `ModelTrainer.train_cascaded_models` (trainer.py lines 36-96) as a
transition on the artifact state: the early return when not forcing and
both artifacts exist; otherwise Phase 1 fits the detector on all rows with
binary labels unless its artifact exists (and no force), and Phase 2 fits
the diagnostician on the faulty rows with their `faultNumber` labels
unless its artifact exists (and no force).  Each fit writes its
artifact. -/
def train_cascaded_models {F : Type} (df : List (TRow F)) (force : Bool)
    (s : TrainerState F) : TrainerState F × TrainLog :=
  if !force && s.detectorArtifact.isSome && s.diagnosticianArtifact.isSome then
    (s, ⟨false, false⟩)
  else
    let detFit := force || !s.detectorArtifact.isSome
    let s1 : TrainerState F :=
      if detFit then
        { s with detectorArtifact := some ⟨prepareFeaturesRows df, binaryLabels df⟩ }
      else s
    let diagFit := force || !s.diagnosticianArtifact.isSome
    let diagData : FitData F :=
      ⟨prepareFeaturesRows (faultyRows df), (faultyRows df).map TRow.faultNumber⟩
    let s2 : TrainerState F :=
      if diagFit then { s1 with diagnosticianArtifact := some diagData } else s1
    (s2, ⟨detFit, diagFit⟩)

/-! ### Filesystem lemmas -/

theorem fsRead_write_self (fs : FS) (p : FPath) (d : PDF) :
    fsRead (fsWrite fs p d) p = some d := by
  simp [fsRead, fsWrite, List.find?]

theorem fsRead_write_other (fs : FS) (p q : FPath) (d : PDF) (h : q ≠ p) :
    fsRead (fsWrite fs p d) q = fsRead fs q := by
  have hd : decide (p = q) = false := decide_eq_false (fun hpq => h hpq.symm)
  simp [fsRead, fsWrite, List.find?, hd]

theorem fsExists_write_self (fs : FS) (p : FPath) (d : PDF) :
    fsExists (fsWrite fs p d) p = true := by
  simp [fsExists, fsRead_write_self]

theorem fsExists_write_other (fs : FS) (p q : FPath) (d : PDF) (h : q ≠ p) :
    fsExists (fsWrite fs p d) q = fsExists fs q := by
  simp [fsExists, fsRead_write_other fs p q d h]

theorem fsGet_write_self (fs : FS) (p : FPath) (d : PDF) :
    fsGet (fsWrite fs p d) p = d := by
  simp [fsGet, fsRead_write_self]

theorem fsGet_write_other (fs : FS) (p q : FPath) (d : PDF) (h : q ≠ p) :
    fsGet (fsWrite fs p d) q = fsGet fs q := by
  simp [fsGet, fsRead_write_other fs p q d h]

/-! ### List partition helpers -/

theorem length_filter_partition {α : Type} (q : α → Bool) (l : List α) :
    (l.filter q).length + (l.filter (fun x => ! q x)).length = l.length := by
  induction l with
  | nil => rfl
  | cons a t ih => by_cases h : q a <;> simp [List.filter_cons, h] <;> omega

theorem count_filter_partition {α : Type} [DecidableEq α] (q : α → Bool) (l : List α)
    (r : α) :
    List.count r (l.filter q) + List.count r (l.filter (fun x => ! q x)) =
      List.count r l := by
  by_cases h : q r
  · have h2 : List.count r (l.filter (fun x => ! q x)) = 0 :=
      List.count_eq_zero.mpr (fun hmem => by
        have hb := (List.mem_filter.mp hmem).2
        simp [h] at hb)
    rw [List.count_filter h, h2]
    omega
  · have h2 : List.count r (l.filter q) = 0 :=
      List.count_eq_zero.mpr (fun hmem => h ((List.mem_filter.mp hmem).2))
    have h1 : List.count r (l.filter (fun x => ! q x)) = List.count r l :=
      List.count_filter (by simp [h])
    rw [h1, h2]
    omega

theorem mem_filter_partition {α : Type} (q : α → Bool) (l : List α) (r : α)
    (hr : r ∈ l) :
    (r ∈ l.filter q ∧ r ∉ l.filter (fun x => ! q x)) ∨
    (r ∉ l.filter q ∧ r ∈ l.filter (fun x => ! q x)) := by
  by_cases h : q r
  · refine Or.inl ⟨List.mem_filter.mpr ⟨hr, h⟩, fun hc => ?_⟩
    have hb := (List.mem_filter.mp hc).2
    simp [h] at hb
  · exact Or.inr ⟨fun hc => h ((List.mem_filter.mp hc).2),
      List.mem_filter.mpr ⟨hr, by simp [h]⟩⟩

/-! ### Claim C1 -/

/-- C1: for every input dataframe with a `unique_run_id` column and every
test fraction, `split_by_run` partitions the rows by run: the train and
test row counts sum to the input count, every input row lands in exactly
one partition, no row is dropped or duplicated (multiplicities are
preserved), and no run identifier has rows in both partitions. -/
theorem split_by_run_partitions_rows {α : Type} [DecidableEq α]
    (shuffled : List String) (df : List (SRow α)) (testSize : ℚ)
    (tr te : List (SRow α))
    (h : split_by_run shuffled df testSize = (tr, te)) :
    tr.length + te.length = df.length ∧
    (∀ r ∈ df, (r ∈ tr ∧ r ∉ te) ∨ (r ∉ tr ∧ r ∈ te)) ∧
    (∀ r, List.count r tr + List.count r te = List.count r df) ∧
    (∀ r1 ∈ tr, ∀ r2 ∈ te, r1.runId ≠ r2.runId) := by
  simp only [split_by_run] at h
  injection h with h1 h2
  subst h1
  subst h2
  refine ⟨length_filter_partition _ df, fun r hr => mem_filter_partition _ df r hr,
    fun r => count_filter_partition _ df r, ?_⟩
  intro r1 h1 r2 h2 heq
  have hq1 := (List.mem_filter.mp h1).2
  have hq2 := (List.mem_filter.mp h2).2
  rw [heq] at hq1
  simp [hq1] at hq2

/-- Witness for C1 at a concrete two-run dataframe. -/
theorem split_by_run_partitions_rows_witness :
    (split_by_run ["0_1", "0_2"] [SRow.mk "0_1" 10, SRow.mk "0_2" 20] (1/2 : ℚ)).1.length +
      (split_by_run ["0_1", "0_2"] [SRow.mk "0_1" 10, SRow.mk "0_2" 20] (1/2 : ℚ)).2.length = 2 :=
  (split_by_run_partitions_rows ["0_1", "0_2"] [SRow.mk "0_1" 10, SRow.mk "0_2" 20]
    (1/2 : ℚ) _ _ rfl).1

/-! ### Claim C5 -/

/-- C5 counterexample: with a cached subset file present, `load_data`
succeeds even though the master dataset file is absent, so a missing
master artifact is not always fatal. -/
theorem load_data_missing_master_not_always_fatal :
    fsExists [(subsetPath 5, PDF.mk true [])] MERGED_FILE_PATH = false ∧
    load_data 5 [(subsetPath 5, PDF.mk true [])] =
      .ok ([(subsetPath 5, PDF.mk true [])], []) := by
  constructor <;> rfl

/-- C5 (amended): whenever `load_data` is called, the cached subset file
for the requested simulation count is absent, and the master dataset file
is absent, the load fails with `FileNotFoundError` instead of returning a
result. -/
theorem load_data_missing_master_and_subset_raises (n : Nat) (fs : FS)
    (hsub : fsExists fs (subsetPath n) = false)
    (hmaster : fsExists fs MERGED_FILE_PATH = false) :
    load_data n fs = .error "FileNotFoundError" := by
  simp [load_data, hsub, hmaster]

/-- Witness for the amended C5 on the empty filesystem. -/
theorem load_data_missing_master_and_subset_raises_witness :
    load_data 5 [] = .error "FileNotFoundError" :=
  load_data_missing_master_and_subset_raises 5 [] rfl rfl

/-! ### Claim C6 -/

/-- C6: when both source dataframes read during a fresh merge are empty,
the merge returns the empty dataframe with the error logged (flag `true`)
instead of raising an exception. -/
theorem merge_empty_sources_returns_empty (fs : FS)
    (hm : fsExists fs MERGED_FILE_PATH = false)
    (hf : fsExists fs faultyPath = true)
    (hn : fsExists fs normalPath = true)
    (hfe : (fsGet fs faultyPath).rows = [])
    (hne : (fsGet fs normalPath).rows = []) :
    merge_faulty_and_normal_data fs = .ok (fs, emptyPDF, true) := by
  simp [merge_faulty_and_normal_data, hm, hf, hn, hfe, hne]

/-- Witness for C6 on a filesystem holding two empty source parquets. -/
theorem merge_empty_sources_returns_empty_witness :
    merge_faulty_and_normal_data [(faultyPath, PDF.mk true []), (normalPath, PDF.mk false [])] =
      .ok ([(faultyPath, PDF.mk true []), (normalPath, PDF.mk false [])], emptyPDF, true) :=
  merge_empty_sources_returns_empty _ rfl rfl rfl rfl rfl

/-! ### Claim C2 -/

/-- C2: in `train_cascaded_models`, with `force = False` and both artifact
files present no fitting occurs and no artifact is written; with
`force = True` both models are fitted and their artifacts rewritten from
the training data regardless of the prior artifact state; and with
`force = False` each phase fits exactly when its own artifact file does
not exist. -/
theorem train_cascaded_models_force_semantics {F : Type} (df : List (TRow F))
    (s : TrainerState F) :
    ((s.detectorArtifact.isSome = true ∧ s.diagnosticianArtifact.isSome = true) →
       train_cascaded_models df false s = (s, ⟨false, false⟩)) ∧
    ((train_cascaded_models df true s).2 = ⟨true, true⟩ ∧
       (train_cascaded_models df true s).1 =
         ⟨some ⟨prepareFeaturesRows df, binaryLabels df⟩,
          some ⟨prepareFeaturesRows (faultyRows df), (faultyRows df).map TRow.faultNumber⟩⟩) ∧
    ((train_cascaded_models df false s).2.fitDetector = s.detectorArtifact.isNone ∧
     (train_cascaded_models df false s).2.fitDiagnostician = s.diagnosticianArtifact.isNone) := by
  obtain ⟨det, diag⟩ := s
  cases det <;> cases diag <;> simp [train_cascaded_models]

/-- Witness for C2: both artifacts present, no force, call is a no-op. -/
theorem train_cascaded_models_force_semantics_witness :
    train_cascaded_models ([] : List (TRow Nat)) false
        ⟨some ⟨[], []⟩, some ⟨[], []⟩⟩ =
      (⟨some ⟨[], []⟩, some ⟨[], []⟩⟩, ⟨false, false⟩) :=
  (train_cascaded_models_force_semantics ([] : List (TRow Nat))
    ⟨some ⟨[], []⟩, some ⟨[], []⟩⟩).1 ⟨rfl, rfl⟩

/-! ### Claim C4 -/

/-- C4: whenever Phase 1 runs, the detector is fitted on the features of
all training rows with binary target `1` exactly on rows with
`faultNumber > 0`; whenever Phase 2 runs, the diagnostician is fitted
only on rows with `faultNumber > 0` (all of them, with multiplicity),
with target the specific `faultNumber` of each such row. -/
theorem cascade_training_data_correct {F : Type} [DecidableEq F]
    (df : List (TRow F)) (force : Bool) (s s1 : TrainerState F) (log : TrainLog)
    (h : train_cascaded_models df force s = (s1, log)) :
    (log.fitDetector = true →
       ∃ fd, s1.detectorArtifact = some fd ∧
         (∀ i : Nat, fd.X[i]? = (df[i]?).map TRow.features) ∧
         (∀ i : Nat, fd.y[i]? =
           (df[i]?).map (fun r => if 0 < r.faultNumber then (1 : Int) else 0))) ∧
    (log.fitDiagnostician = true →
       ∃ fd, s1.diagnosticianArtifact = some fd ∧
         (∀ i : Nat, fd.X[i]? = ((faultyRows df)[i]?).map TRow.features) ∧
         (∀ i : Nat, fd.y[i]? = ((faultyRows df)[i]?).map TRow.faultNumber) ∧
         (∀ r ∈ faultyRows df, 0 < r.faultNumber) ∧
         (∀ r : TRow F, 0 < r.faultNumber →
            List.count r (faultyRows df) = List.count r df)) := by
  have hfaulty : ∀ r ∈ faultyRows df, 0 < r.faultNumber := by
    intro r hr
    have hb := (List.mem_filter.mp hr).2
    exact of_decide_eq_true hb
  have hcount : ∀ r : TRow F, 0 < r.faultNumber →
      List.count r (faultyRows df) = List.count r df := by
    intro r hr
    exact List.count_filter (decide_eq_true hr)
  obtain ⟨det, diag⟩ := s
  constructor
  · intro hlog
    refine ⟨⟨prepareFeaturesRows df, binaryLabels df⟩, ?_,
      fun i => by simp [prepareFeaturesRows, List.getElem?_map],
      fun i => by simp [binaryLabels, List.getElem?_map]⟩
    cases force <;> cases det <;> cases diag <;>
      simp [train_cascaded_models] at h <;>
      obtain ⟨h1, h2⟩ := h <;>
      (try (rw [← h2] at hlog; simp at hlog)) <;>
      rw [← h1]
  · intro hlog
    refine ⟨⟨prepareFeaturesRows (faultyRows df), (faultyRows df).map TRow.faultNumber⟩, ?_,
      fun i => by simp [prepareFeaturesRows, List.getElem?_map],
      fun i => by simp [List.getElem?_map], hfaulty, hcount⟩
    cases force <;> cases det <;> cases diag <;>
      simp [train_cascaded_models] at h <;>
      obtain ⟨h1, h2⟩ := h <;>
      (try (rw [← h2] at hlog; simp at hlog)) <;>
      rw [← h1]

/-- Witness for C4: forced training on a two-row dataframe with one
normal and one faulty row. -/
theorem cascade_training_data_correct_witness :
    (TrainLog.fitDetector ⟨true, true⟩ = true →
       ∃ fd, (TrainerState.detectorArtifact (F := Nat)
           ⟨some ⟨[7, 8], [0, 1]⟩, some ⟨[8], [3]⟩⟩) = some fd ∧
         (∀ i : Nat, fd.X[i]? =
           (([⟨0, 7⟩, ⟨3, 8⟩] : List (TRow Nat))[i]?).map TRow.features) ∧
         (∀ i : Nat, fd.y[i]? =
           (([⟨0, 7⟩, ⟨3, 8⟩] : List (TRow Nat))[i]?).map
             (fun r => if 0 < r.faultNumber then (1 : Int) else 0))) ∧
    (TrainLog.fitDiagnostician ⟨true, true⟩ = true →
       ∃ fd, (TrainerState.diagnosticianArtifact (F := Nat)
           ⟨some ⟨[7, 8], [0, 1]⟩, some ⟨[8], [3]⟩⟩) = some fd ∧
         (∀ i : Nat, fd.X[i]? =
           ((faultyRows ([⟨0, 7⟩, ⟨3, 8⟩] : List (TRow Nat)))[i]?).map TRow.features) ∧
         (∀ i : Nat, fd.y[i]? =
           ((faultyRows ([⟨0, 7⟩, ⟨3, 8⟩] : List (TRow Nat)))[i]?).map TRow.faultNumber) ∧
         (∀ r ∈ faultyRows ([⟨0, 7⟩, ⟨3, 8⟩] : List (TRow Nat)), 0 < r.faultNumber) ∧
         (∀ r : TRow Nat, 0 < r.faultNumber →
            List.count r (faultyRows ([⟨0, 7⟩, ⟨3, 8⟩] : List (TRow Nat))) =
              List.count r ([⟨0, 7⟩, ⟨3, 8⟩] : List (TRow Nat)))) :=
  cascade_training_data_correct ([⟨0, 7⟩, ⟨3, 8⟩] : List (TRow Nat)) true
    ⟨none, none⟩ ⟨some ⟨[7, 8], [0, 1]⟩, some ⟨[8], [3]⟩⟩ ⟨true, true⟩ (by decide)

/-! ### Claim C8 -/

/-- C8: when a fresh merge combines a faulty dataset that carries
`faultNumber` with a normal dataset that lacks the column, every normal
row is assigned `faultNumber = 0` (its other fields unchanged) while the
faulty rows keep their `faultNumber`, and the result is written as the
master artifact. -/
theorem merge_assigns_fault_zero (fs : FS)
    (hm : fsExists fs MERGED_FILE_PATH = false)
    (hf : fsExists fs faultyPath = true)
    (hn : fsExists fs normalPath = true)
    (hnc : (fsGet fs normalPath).hasFaultCol = false)
    (hfc : (fsGet fs faultyPath).hasFaultCol = true)
    (hne : ¬((fsGet fs normalPath).rows = [] ∧ (fsGet fs faultyPath).rows = [])) :
    merge_faulty_and_normal_data fs =
      .ok (fsWrite fs MERGED_FILE_PATH
            ⟨true, (fsGet fs normalPath).rows.map zeroFault ++ (fsGet fs faultyPath).rows⟩,
          ⟨true, (fsGet fs normalPath).rows.map zeroFault ++ (fsGet fs faultyPath).rows⟩,
          false) ∧
    (∀ r ∈ (fsGet fs normalPath).rows,
       (zeroFault r).fault = 0 ∧ (zeroFault r).simRun = r.simRun ∧
       (zeroFault r).payload = r.payload) := by
  have hb : ((fsGet fs normalPath).rows.isEmpty && (fsGet fs faultyPath).rows.isEmpty) = false := by
    cases hA : (fsGet fs normalPath).rows.isEmpty <;>
      cases hB : (fsGet fs faultyPath).rows.isEmpty <;>
      simp_all [List.isEmpty_iff]
  constructor
  · simp [merge_faulty_and_normal_data, hm, hf, hn, hb, hnc, hfc]
  · intro r _
    exact ⟨rfl, rfl, rfl⟩

/-- Witness for C8: one normal row without the column, one faulty row. -/
theorem merge_assigns_fault_zero_witness :
    merge_faulty_and_normal_data
        [(faultyPath, PDF.mk true [⟨4, 1, 11⟩]), (normalPath, PDF.mk false [⟨9, 1, 10⟩])] =
      .ok (fsWrite [(faultyPath, PDF.mk true [⟨4, 1, 11⟩]), (normalPath, PDF.mk false [⟨9, 1, 10⟩])]
            MERGED_FILE_PATH (PDF.mk true [⟨0, 1, 10⟩, ⟨4, 1, 11⟩]),
          PDF.mk true [⟨0, 1, 10⟩, ⟨4, 1, 11⟩], false) :=
  (merge_assigns_fault_zero
    [(faultyPath, PDF.mk true [⟨4, 1, 11⟩]), (normalPath, PDF.mk false [⟨9, 1, 10⟩])]
    rfl rfl rfl rfl rfl (by decide)).1

/-! ### Claim C9 -/

theorem lookup_eq_of_mem_of_nodup {α : Type} (l : List (String × List α)) (k : String)
    (v : List α) (hmem : (k, v) ∈ l) (hnd : (l.map Prod.fst).Nodup) :
    l.lookup k = some v := by
  induction l with
  | nil => cases hmem
  | cons a t ih =>
    obtain ⟨ak, av⟩ := a
    rcases List.mem_cons.mp hmem with heq | ht
    · rw [show k = ak from congrArg Prod.fst heq]
      simp only [List.lookup, beq_self_eq_true]
      exact congrArg Option.some (congrArg Prod.snd heq).symm
    · have hk : (k == ak) = false := by
        refine beq_eq_false_iff_ne.mpr (fun hkak => ?_)
        have hin : ak ∈ t.map Prod.fst := by
          subst hkak
          exact List.mem_map_of_mem Prod.fst ht
        exact (List.nodup_cons.mp hnd).1 hin
      simp only [List.lookup, hk]
      exact ih ht (List.nodup_cons.mp hnd).2

/-- C9: for every dataframe, the feature frame produced by the split
contains none of the metadata columns, retains every other column with
its values unchanged, agrees with the trainer's `_prepare_features`, and
the label is the dataframe's `faultNumber` column. -/
theorem finalize_split_strips_metadata {α : Type}
    (df : ColDF α) (X : ColDF α) (y : Option (List α))
    (h : finalize_split df = (X, y)) :
    (∀ c ∈ X, c.1 ∉ metadataCols) ∧
    (∀ c ∈ df, c.1 ∉ metadataCols → c ∈ X) ∧
    (∀ c ∈ X, c ∈ df) ∧
    prepare_features df = X ∧
    (∀ vals, ("faultNumber", vals) ∈ df → (colNames df).Nodup → y = some vals) := by
  simp only [finalize_split] at h
  injection h with h1 h2
  subst h1
  subst h2
  refine ⟨?_, ?_, ?_, rfl, ?_⟩
  · intro c hc hmeta
    obtain ⟨hcdf, hcb⟩ := List.mem_filter.mp hc
    have hdrop : c.1 ∈ colsToDrop df := by
      refine List.mem_filter.mpr ⟨hmeta, decide_eq_true ?_⟩
      exact List.mem_map_of_mem Prod.fst hcdf
    simp [hdrop] at hcb
  · intro c hcdf hmeta
    refine List.mem_filter.mpr ⟨hcdf, ?_⟩
    have hnd : c.1 ∉ colsToDrop df := fun hin => hmeta (List.mem_filter.mp hin).1
    simp [hnd]
  · exact fun c hc => (List.mem_filter.mp hc).1
  · intro vals hmem hnodup
    exact lookup_eq_of_mem_of_nodup df "faultNumber" vals hmem hnodup

/-- Witness for C9 on a three-column frame: the surviving sensor column is
not a metadata column. -/
theorem finalize_split_strips_metadata_witness :
    (("s1", ([5, 6] : List Int)).1 ∉ metadataCols) :=
  (finalize_split_strips_metadata
      ([("faultNumber", [0, 3]), ("s1", [5, 6]), ("sample", [1, 2])] : ColDF Int)
      [("s1", [5, 6])] (some [0, 3]) rfl).1 ("s1", [5, 6]) (by decide)

/-! ### Claim C3: helper lemmas for the stage caches -/

theorem convertOne_exists_mono (fs : FS) (c : String) (q : FPath)
    (h : fsExists fs q = true) : fsExists (convertOne fs c) q = true := by
  unfold convertOne
  split
  · exact h
  · split
    · exact h
    · by_cases hq : q = (RAW_PARQUET_DIR, csvToParquetName c)
      · subst hq
        exact fsExists_write_self _ _ _
      · rw [fsExists_write_other _ _ _ _ hq]
        exact h

theorem convertOne_csv_none (fs : FS) (c x : String)
    (h : fsExists fs (RAW_DATA_PATH, x) = false) :
    fsExists (convertOne fs c) (RAW_DATA_PATH, x) = false := by
  unfold convertOne
  split
  · exact h
  · split
    · exact h
    · rw [fsExists_write_other]
      · exact h
      · intro heq
        have hdir : RAW_DATA_PATH = RAW_PARQUET_DIR := congrArg Prod.fst heq
        exact absurd hdir (by decide)

theorem convertOne_post (fs : FS) (c : String) :
    fsExists (convertOne fs c) (RAW_DATA_PATH, c) = false ∨
    fsExists (convertOne fs c) (RAW_PARQUET_DIR, csvToParquetName c) = true := by
  by_cases h1 : fsExists fs (RAW_DATA_PATH, c) = false
  · left
    exact convertOne_csv_none fs c c h1
  · by_cases h2 : fsExists fs (RAW_PARQUET_DIR, csvToParquetName c) = true
    · right
      exact convertOne_exists_mono fs c _ h2
    · right
      unfold convertOne
      rw [if_neg h1, if_neg h2]
      exact fsExists_write_self _ _ _

theorem convertOne_preserves_post (fs : FS) (c d : String)
    (h : fsExists fs (RAW_DATA_PATH, c) = false ∨
         fsExists fs (RAW_PARQUET_DIR, csvToParquetName c) = true) :
    fsExists (convertOne fs d) (RAW_DATA_PATH, c) = false ∨
    fsExists (convertOne fs d) (RAW_PARQUET_DIR, csvToParquetName c) = true := by
  rcases h with h | h
  · exact Or.inl (convertOne_csv_none fs d c h)
  · exact Or.inr (convertOne_exists_mono fs d _ h)

theorem convertOne_skip (fs : FS) (c : String)
    (h : fsExists fs (RAW_DATA_PATH, c) = false ∨
         fsExists fs (RAW_PARQUET_DIR, csvToParquetName c) = true) :
    convertOne fs c = fs := by
  by_cases h1 : fsExists fs (RAW_DATA_PATH, c) = false
  · unfold convertOne
    rw [if_pos h1]
  · rcases h with h | h
    · exact absurd h h1
    · unfold convertOne
      rw [if_neg h1, if_pos h]

theorem convert_preserves_post (files : List String) (fs : FS) (c : String)
    (h : fsExists fs (RAW_DATA_PATH, c) = false ∨
         fsExists fs (RAW_PARQUET_DIR, csvToParquetName c) = true) :
    fsExists (convert_csv_to_parquet files fs) (RAW_DATA_PATH, c) = false ∨
    fsExists (convert_csv_to_parquet files fs) (RAW_PARQUET_DIR, csvToParquetName c) = true := by
  induction files generalizing fs with
  | nil => exact h
  | cons d t ih =>
    simp only [convert_csv_to_parquet, List.foldl_cons] at ih ⊢
    exact ih (convertOne fs d) (convertOne_preserves_post fs c d h)

theorem convert_establishes_post (files : List String) (fs : FS) (c : String)
    (hc : c ∈ files) :
    fsExists (convert_csv_to_parquet files fs) (RAW_DATA_PATH, c) = false ∨
    fsExists (convert_csv_to_parquet files fs) (RAW_PARQUET_DIR, csvToParquetName c) = true := by
  induction files generalizing fs with
  | nil => cases hc
  | cons d t ih =>
    simp only [convert_csv_to_parquet, List.foldl_cons] at ih ⊢
    rcases List.mem_cons.mp hc with heq | ht
    · subst heq
      have hstep := convertOne_post fs c
      have hrest := convert_preserves_post t (convertOne fs c) c hstep
      simpa only [convert_csv_to_parquet] using hrest
    · exact ih (convertOne fs d) ht

theorem convert_noop (files : List String) (fs : FS)
    (h : ∀ c ∈ files,
      fsExists fs (RAW_DATA_PATH, c) = false ∨
      fsExists fs (RAW_PARQUET_DIR, csvToParquetName c) = true) :
    convert_csv_to_parquet files fs = fs := by
  induction files with
  | nil => rfl
  | cons d t ih =>
    simp only [convert_csv_to_parquet, List.foldl_cons] at ih ⊢
    rw [convertOne_skip fs d (h d (List.mem_cons_self d t))]
    exact ih (fun c hc => h c (List.mem_cons_of_mem d hc))

theorem convert_idem (files : List String) (fs : FS) :
    convert_csv_to_parquet files (convert_csv_to_parquet files fs) =
      convert_csv_to_parquet files fs :=
  convert_noop files _ (fun c hc => convert_establishes_post files fs c hc)

theorem merge_idem (fs : FS) (res : FS × PDF × Bool)
    (h : merge_faulty_and_normal_data fs = .ok res) :
    merge_faulty_and_normal_data res.1 = .ok res := by
  simp only [merge_faulty_and_normal_data] at h
  split at h
  · rename_i h1
    injection h with h2
    subst h2
    simp only [merge_faulty_and_normal_data]
    rw [if_pos h1]
  · rename_i h1
    split at h
    · exact absurd h (by simp)
    · rename_i h2
      split at h
      · exact absurd h (by simp)
      · rename_i h3
        split at h
        · rename_i h4
          injection h with h5
          subst h5
          simp only [merge_faulty_and_normal_data]
          rw [if_neg h1, if_neg h2, if_neg h3, if_pos h4]
        · rename_i h4
          injection h with h5
          subst h5
          simp only [merge_faulty_and_normal_data]
          rw [if_pos (fsExists_write_self fs MERGED_FILE_PATH _)]
          rw [fsGet_write_self]

theorem load_data_idem (n : Nat) (fs : FS) (res : FS × List (SRow PRow))
    (h : load_data n fs = .ok res) : load_data n res.1 = .ok res := by
  simp only [load_data] at h
  split at h
  · rename_i h1
    split at h
    · rename_i h2
      injection h with h3
      subst h3
      simp only [load_data]
      rw [if_pos h1, if_pos h2]
    · exact absurd h (by simp)
  · rename_i h1
    split at h
    · exact absurd h (by simp)
    · rename_i h2
      split at h
      · rename_i h3
        split at h
        · rename_i h4
          injection h with h5
          subst h5
          simp only [load_data]
          rw [if_pos (fsExists_write_self fs (subsetPath n) _)]
          rw [fsGet_write_self]
          have hcol : (subsample_by_run (fsGet fs MERGED_FILE_PATH) n).hasFaultCol = true := h4
          rw [if_pos hcol]
        · exact absurd h (by simp)
      · rename_i h3
        split at h
        · rename_i h4
          injection h with h5
          subst h5
          simp only [load_data]
          rw [if_neg h1, if_neg h2, if_neg h3, if_pos h4]
        · exact absurd h (by simp)

/-! ### Claim C3 -/

/-- C3: each pipeline stage is a no-op when its output artifact exists:
conversion skips every CSV whose parquet exists and converting twice
equals converting once; the merge returns the parsed existing master file
without writing, and re-running the merge on its own result changes
nothing; `load_data` returns the cached subset when present, and
re-running a successful load on its resulting filesystem returns the same
result with no write. -/
theorem pipeline_stage_caching_idempotent :
    (∀ fs c, fsExists fs (RAW_PARQUET_DIR, csvToParquetName c) = true →
       convertOne fs c = fs) ∧
    (∀ files fs,
       convert_csv_to_parquet files (convert_csv_to_parquet files fs) =
         convert_csv_to_parquet files fs) ∧
    (∀ fs, fsExists fs MERGED_FILE_PATH = true →
       merge_faulty_and_normal_data fs = .ok (fs, fsGet fs MERGED_FILE_PATH, false)) ∧
    (∀ fs res, merge_faulty_and_normal_data fs = .ok res →
       merge_faulty_and_normal_data res.1 = .ok res) ∧
    (∀ n fs, fsExists fs (subsetPath n) = true →
       (fsGet fs (subsetPath n)).hasFaultCol = true →
       load_data n fs = .ok (fs, withRunId (fsGet fs (subsetPath n)))) ∧
    (∀ n fs res, load_data n fs = .ok res → load_data n res.1 = .ok res) := by
  refine ⟨fun fs c h => convertOne_skip fs c (Or.inr h),
    convert_idem,
    fun fs h => ?_,
    merge_idem,
    fun n fs h1 h2 => ?_,
    load_data_idem⟩
  · simp only [merge_faulty_and_normal_data]
    rw [if_pos h]
  · simp only [load_data]
    rw [if_pos h1, if_pos h2]

/-- Witness for C3: a second conversion run over a one-file list on a
filesystem holding that CSV is a no-op. -/
theorem pipeline_stage_caching_idempotent_witness :
    convert_csv_to_parquet ["a.csv"]
        (convert_csv_to_parquet ["a.csv"] [((RAW_DATA_PATH, "a.csv"), PDF.mk true [])]) =
      convert_csv_to_parquet ["a.csv"] [((RAW_DATA_PATH, "a.csv"), PDF.mk true [])] :=
  pipeline_stage_caching_idempotent.2.1 ["a.csv"] [((RAW_DATA_PATH, "a.csv"), PDF.mk true [])]

/-! ### Claim C7 -/

/-- C7: for any master dataframe whose run-id column has exactly twenty
distinct values (the end-to-end scenario: ten faulty runs in two fault
classes plus ten normal runs) and `test_size = 0.2`, `split_by_run`
places exactly `round(20 * 0.2) = 4` run identifiers in the test
partition and `16` in the train partition. -/
theorem split_twenty_runs_test_count {α : Type} [DecidableEq α]
    (df : List (SRow α)) (shuffled : List String)
    (hperm : shuffled.Perm (uniqueRuns df))
    (h20 : shuffled.length = 20)
    (tr te : List (SRow α))
    (hsplit : split_by_run shuffled df (1/5 : ℚ) = (tr, te)) :
    (tr.map SRow.runId).toFinset.card = 16 ∧
    (te.map SRow.runId).toFinset.card = 4 := by
  have hnodup : shuffled.Nodup := by
    refine hperm.nodup_iff.mpr ?_
    show ((df.map SRow.runId).dedup).Nodup
    exact List.nodup_dedup _
  have hidx : pyInt ((shuffled.length : ℚ) * (1 - 1/5)) = 16 := by
    rw [h20]
    have hq : ((20 : ℕ) : ℚ) * (1 - 1/5) = 16 := by norm_num
    rw [hq]
    simp [pyInt]
  have hslice : npSliceTo shuffled (pyInt ((shuffled.length : ℚ) * (1 - 1/5))) =
      shuffled.take 16 := by
    rw [hidx]
    unfold npSliceTo
    rw [if_pos (by decide : (0 : Int) ≤ 16)]
    rfl
  simp only [split_by_run, hslice] at hsplit
  injection hsplit with h1 h2
  subst h1
  subst h2
  have hmem_df : ∀ r : SRow α, r ∈ df → r.runId ∈ shuffled := by
    intro r hr
    refine hperm.mem_iff.mpr ?_
    show r.runId ∈ (df.map SRow.runId).dedup
    exact List.mem_dedup.mpr (List.mem_map_of_mem SRow.runId hr)
  have hcover : ∀ s ∈ shuffled, ∃ r ∈ df, r.runId = s := by
    intro s hs
    have hs2 : s ∈ (df.map SRow.runId).dedup := hperm.mem_iff.mp hs
    exact List.mem_map.mp (List.mem_dedup.mp hs2)
  have happ : shuffled.take 16 ++ shuffled.drop 16 = shuffled :=
    List.take_append_drop 16 shuffled
  have hnd2 : (shuffled.take 16 ++ shuffled.drop 16).Nodup := by
    rw [happ]
    exact hnodup
  obtain ⟨hndT, hndD, hdisj⟩ := List.nodup_append.mp hnd2
  have hTlen : (shuffled.take 16).length = 16 := by
    simp [List.length_take, h20]
  have hDlen : (shuffled.drop 16).length = 4 := by
    simp [List.length_drop, h20]
  have htr : ∀ s,
      s ∈ (df.filter (fun r => decide (r.runId ∈ shuffled.take 16))).map SRow.runId ↔
      s ∈ shuffled.take 16 := by
    intro s
    constructor
    · intro hs
      obtain ⟨r, hr, hrs⟩ := List.mem_map.mp hs
      obtain ⟨hrdf, hrb⟩ := List.mem_filter.mp hr
      rw [← hrs]
      exact of_decide_eq_true hrb
    · intro hs
      have hsSh : s ∈ shuffled := by
        rw [← happ]
        exact List.mem_append_left _ hs
      obtain ⟨r, hr, hrs⟩ := hcover s hsSh
      refine List.mem_map.mpr ⟨r, List.mem_filter.mpr ⟨hr, decide_eq_true ?_⟩, hrs⟩
      rw [hrs]
      exact hs
  have hte : ∀ s,
      s ∈ (df.filter (fun r => ! decide (r.runId ∈ shuffled.take 16))).map SRow.runId ↔
      s ∈ shuffled.drop 16 := by
    intro s
    constructor
    · intro hs
      obtain ⟨r, hr, hrs⟩ := List.mem_map.mp hs
      obtain ⟨hrdf, hrb⟩ := List.mem_filter.mp hr
      have hnotT : r.runId ∉ shuffled.take 16 := by
        intro hT
        simp [hT] at hrb
      have hrSh : r.runId ∈ shuffled := hmem_df r hrdf
      rw [← happ] at hrSh
      rcases List.mem_append.mp hrSh with hT | hD
      · exact absurd hT hnotT
      · rw [← hrs]
        exact hD
    · intro hs
      have hsSh : s ∈ shuffled := by
        rw [← happ]
        exact List.mem_append_right _ hs
      obtain ⟨r, hr, hrs⟩ := hcover s hsSh
      have hnotT : s ∉ shuffled.take 16 := fun hT => hdisj hT hs
      refine List.mem_map.mpr ⟨r, List.mem_filter.mpr ⟨hr, ?_⟩, hrs⟩
      rw [hrs]
      simp [hnotT]
  have hTfin :
      ((df.filter (fun r => decide (r.runId ∈ shuffled.take 16))).map SRow.runId).toFinset =
        (shuffled.take 16).toFinset := by
    apply Finset.ext
    intro s
    simp only [List.mem_toFinset]
    exact htr s
  have hDfin :
      ((df.filter (fun r => ! decide (r.runId ∈ shuffled.take 16))).map SRow.runId).toFinset =
        (shuffled.drop 16).toFinset := by
    apply Finset.ext
    intro s
    simp only [List.mem_toFinset]
    exact hte s
  constructor
  · rw [hTfin, List.toFinset_card_of_nodup hndT, hTlen]
  · rw [hDfin, List.toFinset_card_of_nodup hndD, hDlen]

/-- Witness for C7: the concrete twenty-run scenario dataframe. -/
theorem split_twenty_runs_test_count_witness :
    (((split_by_run scenarioRunIds (scenarioRunIds.map (fun s => SRow.mk s ()))
        (1/5 : ℚ)).1.map SRow.runId).toFinset.card = 16 ∧
     ((split_by_run scenarioRunIds (scenarioRunIds.map (fun s => SRow.mk s ()))
        (1/5 : ℚ)).2.map SRow.runId).toFinset.card = 4) :=
  split_twenty_runs_test_count (scenarioRunIds.map (fun s => SRow.mk s ()))
    scenarioRunIds (by decide) (by decide) _ _ rfl

/-! ### Claim C10: helper lemmas about sorted prefixes -/

theorem countP_lt_zero_of_lower_bound (a : Int) (t : List Int)
    (h : ∀ b ∈ t, a < b) : t.countP (fun w => decide (w < a)) = 0 := by
  rw [List.countP_eq_zero]
  intro b hb
  simp only [decide_eq_true_eq]
  exact not_lt.mpr (le_of_lt (h b hb))

theorem mem_take_sorted_iff (l : List Int) (hs : List.Sorted (· < ·) l) (n : Nat)
    (v : Int) :
    v ∈ l.take n ↔ v ∈ l ∧ l.countP (fun w => decide (w < v)) < n := by
  induction l generalizing n with
  | nil => simp
  | cons a t ih =>
    obtain ⟨ha, ht⟩ := List.sorted_cons.mp hs
    cases n with
    | zero => simp
    | succ m =>
      rw [List.take_succ_cons]
      by_cases hv : v = a
      · subst hv
        constructor
        · intro _
          refine ⟨List.mem_cons_self v t, ?_⟩
          rw [List.countP_cons, countP_lt_zero_of_lower_bound v t ha]
          simp
        · intro _
          exact List.mem_cons_self v (t.take m)
      · have hmem1 : v ∈ a :: t.take m ↔ v ∈ t.take m := by
          simp [List.mem_cons, hv]
        have hmem2 : v ∈ a :: t ↔ v ∈ t := by
          simp [List.mem_cons, hv]
        rw [hmem1, hmem2, ih ht m, List.countP_cons]
        constructor
        · rintro ⟨hvt, hc⟩
          have hd : decide (a < v) = true := decide_eq_true (ha v hvt)
          refine ⟨hvt, ?_⟩
          rw [if_pos hd]
          omega
        · rintro ⟨hvt, hc⟩
          have hd : decide (a < v) = true := decide_eq_true (ha v hvt)
          refine ⟨hvt, ?_⟩
          rw [if_pos hd] at hc
          omega

theorem npUnique_sorted (l : List Int) : List.Sorted (· < ·) (npUnique l) := by
  have htrans : ∀ (a b c : Int), decide (a ≤ b) = true → decide (b ≤ c) = true →
      decide (a ≤ c) = true := by
    intro a b c hab hbc
    exact decide_eq_true (le_trans (of_decide_eq_true hab) (of_decide_eq_true hbc))
  have htotal : ∀ (a b : Int), (decide (a ≤ b) || decide (b ≤ a)) = true := by
    intro a b
    rcases le_total a b with h | h <;> simp [h]
  have hp := List.sorted_mergeSort htrans htotal l.dedup
  have hperm : (npUnique l).Perm l.dedup := List.mergeSort_perm l.dedup _
  have hnd : (npUnique l).Nodup := hperm.nodup_iff.mpr (List.nodup_dedup l)
  have hsle : List.Sorted (· ≤ ·) (npUnique l) := by
    refine List.Pairwise.imp ?_ hp
    intro a b hab
    exact of_decide_eq_true hab
  exact hsle.lt_of_le hnd

theorem mem_npUnique (l : List Int) (v : Int) : v ∈ npUnique l ↔ v ∈ l := by
  unfold npUnique
  rw [(List.mergeSort_perm l.dedup _).mem_iff]
  exact List.mem_dedup

theorem countP_npUnique (l : List Int) (p : Int → Bool) :
    (npUnique l).countP p = l.dedup.countP p :=
  (List.mergeSort_perm l.dedup _).countP_eq p

theorem mem_nSmallestRuns_iff (df : PDF) (f : Int) (n : Nat) (v : Int) :
    v ∈ nSmallestRuns df f n ↔ specNSmallestDistinct n v (classSimRuns df f) := by
  unfold nSmallestRuns specNSmallestDistinct
  rw [mem_take_sorted_iff _ (npUnique_sorted _) n v]
  rw [mem_npUnique, countP_npUnique]

/-! ### Claim C10 -/

/-- C10: for `n > 0`, the subsampling step keeps exactly the unmodified
input rows whose `simulationRun` is among the `n` smallest distinct
simulation-run values of their `faultNumber` class (so each class retains
at most `n` distinct runs); and with falsy `n_simulations` the load
returns the full master dataset (with its derived run-id column) and
writes no subset cache file. -/
theorem subsample_keeps_n_smallest (df : PDF) (n : Nat) (hn : 0 < n) :
    (subsample_by_run df n).rows.Sublist df.rows ∧
    (subsample_by_run df n).hasFaultCol = df.hasFaultCol ∧
    (∀ r, r ∈ (subsample_by_run df n).rows ↔
       r ∈ df.rows ∧ specNSmallestDistinct n r.simRun (classSimRuns df r.fault)) ∧
    (∀ f, (((subsample_by_run df n).rows.filter
        (fun r => decide (r.fault = f))).map PRow.simRun).toFinset.card ≤ n) ∧
    (∀ fs, fsExists fs (subsetPath 0) = false →
       fsExists fs MERGED_FILE_PATH = true →
       (fsGet fs MERGED_FILE_PATH).hasFaultCol = true →
       load_data 0 fs = .ok (fs, withRunId (fsGet fs MERGED_FILE_PATH))) := by
  refine ⟨List.filter_sublist _, rfl, ?_, ?_, ?_⟩
  · intro r
    constructor
    · intro hr
      obtain ⟨hrdf, hrb⟩ := List.mem_filter.mp hr
      exact ⟨hrdf, (mem_nSmallestRuns_iff df r.fault n r.simRun).mp (of_decide_eq_true hrb)⟩
    · rintro ⟨hrdf, hspec⟩
      refine List.mem_filter.mpr ⟨hrdf, decide_eq_true ?_⟩
      exact (mem_nSmallestRuns_iff df r.fault n r.simRun).mpr hspec
  · intro f
    have hsub : ∀ v ∈ ((subsample_by_run df n).rows.filter
        (fun r => decide (r.fault = f))).map PRow.simRun, v ∈ nSmallestRuns df f n := by
      intro v hv
      obtain ⟨r, hr, hrv⟩ := List.mem_map.mp hv
      obtain ⟨hrs, hrf⟩ := List.mem_filter.mp hr
      have hfeq : r.fault = f := of_decide_eq_true hrf
      obtain ⟨hrdf, hrb⟩ := List.mem_filter.mp hrs
      have hrun : r.simRun ∈ nSmallestRuns df r.fault n := of_decide_eq_true hrb
      rw [hfeq] at hrun
      rw [← hrv]
      exact hrun
    have hss : (((subsample_by_run df n).rows.filter
        (fun r => decide (r.fault = f))).map PRow.simRun).toFinset ⊆
        (nSmallestRuns df f n).toFinset :=
      fun v hv => List.mem_toFinset.mpr (hsub v (List.mem_toFinset.mp hv))
    refine le_trans (Finset.card_le_card hss) (le_trans (List.toFinset_card_le _) ?_)
    exact List.length_take_le n _
  · intro fs h1 h2 h3
    simp only [load_data]
    rw [if_neg (by simp [h1]), if_neg (by simp [h2]), if_neg (by simp), if_pos h3]

/-- Witness for C10: subsampling keeps a sublist of the rows on a
three-run single-class master frame. -/
theorem subsample_keeps_n_smallest_witness :
    (subsample_by_run (PDF.mk true [⟨0, 1, 1⟩, ⟨0, 2, 2⟩, ⟨0, 3, 3⟩]) 2).rows.Sublist
      (PDF.mk true [⟨0, 1, 1⟩, ⟨0, 2, 2⟩, ⟨0, 3, 3⟩]).rows :=
  (subsample_keeps_n_smallest (PDF.mk true [⟨0, 1, 1⟩, ⟨0, 2, 2⟩, ⟨0, 3, 3⟩]) 2
    (by decide)).1

end TepDemo
